import Mathlib

/-!
Verification of the pouch exec/attach surface and rmi command.

Part A embeds, from the source, the request-building helpers
(`StartContainerExec`, `StartContainerExecOk`, `CreateExecEchoOk`,
`isContainerStateEqual`, `IsContainerRunning`, `IsContainerCreated`) and the
`rmi` command loop (`runRmi`).

Part B models, from the specification, the exec-attach subsystem (Session
Registry, Upgrade Handshake, Attached Stream Adapter, Lifecycle Guard,
non-TTY frame demultiplexing), whose implementation is not part of the
source tree: only its test-side callers are.
-/

namespace Pouch

/- ------------------------------------------------------------------ -/
/- Part A: definitions embedded from the source.                       -/
/- ------------------------------------------------------------------ -/

/-- A JSON-like value, as much of it as the observed request bodies need. -/
inductive JVal where
  | str (s : String)
  | bool (b : Bool)
  | arr (elems : List String)
deriving DecidableEq, Repr

/-- A hijack (upgrade) request as built by `StartContainerExec`: target path,
JSON body fields in order, and extra headers. -/
structure HijackRequest where
  path : String
  body : List (String × JVal)
  headers : List (String × String)
deriving DecidableEq, Repr

/-- Embeds `StartContainerExec` from the source: posts to
`/exec/<execid>/start` a JSON body with the two boolean fields `Detach` and
`Tty`, with a `Content-Type: text/plain` header, via `request.Hijack`. -/
def StartContainerExec (execid : String) (tty : Bool) (detach : Bool) :
    HijackRequest :=
  { path := "/exec/" ++ execid ++ "/start"
    body := [("Detach", JVal.bool detach), ("Tty", JVal.bool tty)]
    headers := [("Content-Type", "text/plain")] }

/-- Embeds `CheckRespStatus` from the source: the assertion succeeds exactly
when the response status code equals the expected status. -/
def CheckRespStatus (statusCode : Nat) (expected : Nat) : Bool :=
  statusCode == expected

/-- Embeds the assertion made by `StartContainerExecOk` from the source: the
exec-start exchange is treated as successful exactly when the response status
is 101 (switching protocols). -/
def StartContainerExecOk (statusCode : Nat) : Bool :=
  CheckRespStatus statusCode 101

/-- An exec-create request as built by `CreateExecEchoOk`: target path and
JSON body fields in order. -/
structure ExecCreateRequest where
  path : String
  body : List (String × JVal)
deriving DecidableEq, Repr

/-- Embeds `CreateExecEchoOk` from the source: posts to
`/containers/<cname>/exec` a body with the command vector, the detach flag,
the three attach-stream flags, and the user/privilege fields. -/
def CreateExecEchoOk (cname : String) : ExecCreateRequest :=
  { path := "/containers/" ++ cname ++ "/exec"
    body := [("Cmd", JVal.arr ["echo", "test"]),
             ("Detach", JVal.bool true),
             ("AttachStderr", JVal.bool true),
             ("AttachStdout", JVal.bool true),
             ("AttachStdin", JVal.bool true),
             ("Privileged", JVal.bool false),
             ("User", JVal.str "")] }

/-- The decoded response of the exec-create call (`types.ExecCreateResp`). -/
structure ExecCreateResp where
  ID : String
deriving DecidableEq, Repr

/-- Embeds the tail of `CreateExecEchoOk`: the value returned to the caller is
the `ID` field of the decoded exec-create response. -/
def execCreateResult (resp : ExecCreateResp) : String :=
  resp.ID

/-- The container state object nested in an inspect response
(`types.ContainerState`), as far as the source reads it. -/
structure ContainerState where
  Status : String
deriving DecidableEq, Repr

/-- The decoded inspect response (`types.ContainerJSON`): its `State` field
is a nullable pointer in the source, modelled as an option. -/
structure ContainerJSON where
  State : Option ContainerState
deriving DecidableEq, Repr

/-- Embeds `isContainerStateEqual` from the source, after the response has
been decoded: a nil `State` yields `(false, nil)`; otherwise the status
string is compared with the queried one and the error is nil. -/
def isContainerStateEqual (got : ContainerJSON) (status : String) :
    Bool × Option String :=
  match got.State with
  | none => (false, none)
  | some st => (st.Status == status, none)

/-- Embeds `IsContainerCreated` from the source. -/
def IsContainerCreated (got : ContainerJSON) : Bool × Option String :=
  isContainerStateEqual got "created"

/-- Embeds `IsContainerRunning` from the source. -/
def IsContainerRunning (got : ContainerJSON) : Bool × Option String :=
  isContainerStateEqual got "running"

/-- Embeds `runRmi` from the source. The `reference.Parse`/normalization step
and the `ImageRemove` call are the external collaborators `parse` and
`imageRemove`; errors are their message strings. The result is the list of
references successfully removed (and printed), in order, together with the
error returned by `runRmi` (`none` on success). On the first name that fails
to parse or to be removed, the loop returns the error wrapped with the prefix
`failed to remove image: ` and processes no further names. -/
def runRmi (parse : String → Except String String)
    (imageRemove : String → Bool → Except String Unit)
    (force : Bool) : List String → List String × Option String
  | [] => ([], none)
  | name :: rest =>
    match parse name with
    | Except.error e => ([], some ("failed to remove image: " ++ e))
    | Except.ok ref =>
      match imageRemove ref force with
      | Except.error e => ([], some ("failed to remove image: " ++ e))
      | Except.ok _ =>
        match runRmi parse imageRemove force rest with
        | (removed, err) => (ref :: removed, err)

/- ------------------------------------------------------------------ -/
/- Part B: the exec-attach subsystem, modelled from the spec.          -/
/- ------------------------------------------------------------------ -/

/-- Modelled from the spec: the session state machine of the Session
Registry (the registry implementation is not in the source tree). -/
inductive SessionState where
  | created
  | attaching
  | attached
  | detached
  | closed
  | failed
deriving DecidableEq, Repr

/-- Modelled from the spec: the requested mode of an exec session, a pair of
the TTY flag and the detach flag. -/
structure Mode where
  tty : Bool
  detach : Bool
deriving DecidableEq, Repr

/-- Modelled from the spec: an exec session record held by the Session
Registry. -/
structure Session where
  id : String
  containerRef : String
  mode : Mode
  state : SessionState
deriving DecidableEq, Repr

/-- Modelled from the spec: the error taxonomy of the exec-attach core. -/
inductive AttachError where
  | DuplicateSession
  | InvalidTransition
  | UnknownSession
  | ModeMismatch
  | ContainerNotRunning
  | StructuredRejection (message : String)
  | TransportFailure
  | ChannelClosed
deriving DecidableEq, Repr

/-- Modelled from the spec: the raw duplex channel handed over by a
successful upgrade, tracked only by whether it has been released. -/
structure Channel where
  closed : Bool
deriving DecidableEq, Repr

/-- Modelled from the spec: the engine's possible answers to one upgrade
request, a tagged variant (switching protocols with a raw channel, structured
rejection with a decoded message, or a transport-level failure). -/
inductive EngineReply where
  | switching
  | rejected (message : String)
  | transportError
deriving DecidableEq, Repr

/-- Modelled from the spec: the external collaborators of one attach call:
the lifecycle state accessor (an inspect response per container reference)
and the Request Service's answer to the upgrade request per session id. -/
structure Engine where
  inspect : String → ContainerJSON
  reply : String → EngineReply

/-- Modelled from the spec: registry lookup by session id. -/
def regFind (reg : List (String × Session)) (id : String) : Option Session :=
  match reg with
  | [] => none
  | (k, s) :: rest => if k = id then some s else regFind rest id

/-- Modelled from the spec: registry transition of the session with the given
id to a new state. -/
def setState : List (String × Session) → String → SessionState →
    List (String × Session)
  | [], _, _ => []
  | (k, s) :: rest, id, st =>
    (if k = id then (k, { s with state := st }) else (k, s))
      :: setState rest id st

/-- Modelled from the spec: the observable outcome of one attach call: the
updated registry, the result (a channel on success, an error otherwise), the
number of upgrade requests issued to the Request Service, and the number of
raw channels taken from the transport. -/
structure AttachOutcome where
  registry : List (String × Session)
  result : Except AttachError (Option Channel)
  upgradeCalls : Nat
  channelsOpened : Nat

/-- Modelled from the spec: the Upgrade Handshake `attach(session, mode)`
(its implementation is not in the source tree). Local preconditions are
checked first, before any network call: the session must exist, be in the
`created` state, and the requested mode must match the declared one; then the
Lifecycle Guard consults the state accessor and requires `running`. On a mode
mismatch or guard failure the session moves to `failed`. Only then is the
single upgrade request issued: on the switching-protocols reply the session
moves to `attached` (or `detached` when the mode is fire-and-forget, the
channel being closed immediately by the adapter); on a structured rejection
or transport failure the session moves to `failed` and no channel is
created. -/
def attachFound (engine : Engine) (reg : List (String × Session)) (id : String)
    (m : Mode) (s : Session) : AttachOutcome :=
  if s.state ≠ SessionState.created then
      ⟨reg, Except.error AttachError.InvalidTransition, 0, 0⟩
    else if m ≠ s.mode then
      ⟨setState reg id SessionState.failed,
       Except.error AttachError.ModeMismatch, 0, 0⟩
    else if (IsContainerRunning (engine.inspect s.containerRef)).1 = false then
      ⟨setState reg id SessionState.failed,
       Except.error AttachError.ContainerNotRunning, 0, 0⟩
    else
      match engine.reply id with
      | EngineReply.switching =>
        if m.detach then
          ⟨setState reg id SessionState.detached,
           Except.ok (some ⟨true⟩), 1, 1⟩
        else
          ⟨setState reg id SessionState.attached,
           Except.ok (some ⟨false⟩), 1, 1⟩
      | EngineReply.rejected msg =>
        ⟨setState reg id SessionState.failed,
         Except.error (AttachError.StructuredRejection msg), 1, 0⟩
      | EngineReply.transportError =>
        ⟨setState reg id SessionState.failed,
         Except.error AttachError.TransportFailure, 1, 0⟩

/-- Modelled from the spec: the Upgrade Handshake entry point. It looks the
session up in the registry, failing with `UnknownSession` when absent, and
otherwise proceeds as `attachFound`. -/
def attach (engine : Engine) (reg : List (String × Session)) (id : String)
    (m : Mode) : AttachOutcome :=
  match regFind reg id with
  | none => ⟨reg, Except.error AttachError.UnknownSession, 0, 0⟩
  | some s => attachFound engine reg id m s

/-- Modelled from the spec: the stream tag of a stdout frame on a non-TTY
channel. -/
def stdoutTag : Nat := 1

/-- Modelled from the spec: the stream tag of a stderr frame on a non-TTY
channel. -/
def stderrTag : Nat := 2

/-- Modelled from the spec: the 4-byte big-endian encoding of a frame payload
length. -/
def beBytes4 (n : Nat) : List Nat :=
  [n / 2 ^ 24 % 256, n / 2 ^ 16 % 256, n / 2 ^ 8 % 256, n % 256]

/-- Modelled from the spec: one non-TTY wire frame,
`[1-byte stream tag][4-byte big-endian length][payload bytes]`. -/
def encodeFrame (tag : Nat) (payload : List Nat) : List Nat :=
  tag :: beBytes4 payload.length ++ payload

/-- Modelled from the spec: a sequence of stdout-tagged frames on the wire,
as produced by a peer echoing input back on stdout. -/
def encodeStdoutFrames (frames : List (List Nat)) : List Nat :=
  (frames.map (encodeFrame stdoutTag)).flatten

/-- Modelled from the spec: the frame demultiplexer of the Attached Stream
Adapter, with explicit fuel for structural recursion: repeatedly reads a tag
byte and a 4-byte big-endian length, then routes the payload to the stdout or
stderr endpoint according to the tag, until the channel closes (or the data
is too short to hold a header). -/
def demuxFuel : Nat → List Nat → List Nat × List Nat
  | 0, _ => ([], [])
  | fuel + 1, tag :: b0 :: b1 :: b2 :: b3 :: rest =>
    let len := b0 * 2 ^ 24 + b1 * 2 ^ 16 + b2 * 2 ^ 8 + b3
    let payload := rest.take len
    let restOut := demuxFuel fuel (rest.drop len)
    if tag = 1 then (payload ++ restOut.1, restOut.2)
    else if tag = 2 then (restOut.1, payload ++ restOut.2)
    else restOut
  | _ + 1, _ => ([], [])

/-- Modelled from the spec: demultiplexing a whole non-TTY wire stream into
the bytes of the stdout endpoint and the bytes of the stderr endpoint. -/
def demux (wire : List Nat) : List Nat × List Nat :=
  demuxFuel wire.length wire

/-- Modelled from the spec: the Attached Stream Adapter's handle, tracking
the mode, whether the underlying channel has been released, and how many
times the underlying channel was actually released. -/
structure Adapter where
  tty : Bool
  released : Bool
  releaseCount : Nat
deriving DecidableEq, Repr

/-- Modelled from the spec: the adapter handed over on handshake success: not
released, zero releases performed. -/
def mkAdapter (tty : Bool) : Adapter :=
  { tty := tty, released := false, releaseCount := 0 }

/-- Modelled from the spec: `close()` releases the underlying channel exactly
once; a second call is a no-op and never raises an error. -/
def Adapter.close (a : Adapter) : Adapter × Option AttachError :=
  if a.released then (a, none)
  else ({ a with released := true, releaseCount := a.releaseCount + 1 }, none)

/-- Modelled from the spec: reading the adapter's endpoints given the bytes
available on the wire: after release it fails with `ChannelClosed`; in TTY
mode the single combined stream is passed through raw; in non-TTY mode the
wire is demultiplexed into the stdout and stderr endpoints. -/
def Adapter.read (a : Adapter) (wire : List Nat) :
    Except AttachError (List Nat × List Nat) :=
  if a.released then Except.error AttachError.ChannelClosed
  else if a.tty then Except.ok (wire, [])
  else Except.ok (demux wire)

/-- Modelled from the spec: writing stdin bytes through the adapter: after
release it fails with `ChannelClosed`; otherwise writes are single-stream
pass-through and require no tagging. -/
def Adapter.write (a : Adapter) (bytes : List Nat) :
    Except AttachError (List Nat) :=
  if a.released then Except.error AttachError.ChannelClosed
  else Except.ok bytes

/- ------------------------------------------------------------------ -/
/- Concrete fixtures used to exercise the definitions.                 -/
/- ------------------------------------------------------------------ -/

/-- A concrete non-TTY, attached exec session in the created state. -/
def sessionDemo : Session :=
  { id := "exec1", containerRef := "cont1"
    mode := { tty := false, detach := false }
    state := SessionState.created }

/-- A concrete detached exec session in the created state. -/
def sessionDemoDetach : Session :=
  { id := "exec2", containerRef := "cont1"
    mode := { tty := false, detach := true }
    state := SessionState.created }

/-- A registry holding only `sessionDemo`. -/
def regDemo : List (String × Session) := [("exec1", sessionDemo)]

/-- A registry holding only `sessionDemoDetach`. -/
def regDemoDetach : List (String × Session) := [("exec2", sessionDemoDetach)]

/-- A lifecycle accessor reporting every container as running. -/
def inspectRunning : String → ContainerJSON :=
  fun _ => { State := some { Status := "running" } }

/-- A lifecycle accessor reporting every container as stopped. -/
def inspectStopped : String → ContainerJSON :=
  fun _ => { State := some { Status := "stopped" } }

/-- An engine that accepts every upgrade request. -/
def engineSwitch : Engine :=
  { inspect := inspectRunning, reply := fun _ => EngineReply.switching }

/-- An engine that rejects every upgrade request with a structured error. -/
def engineReject : Engine :=
  { inspect := inspectRunning
    reply := fun _ => EngineReply.rejected "container is paused" }

/-- An engine whose lifecycle accessor reports every container stopped. -/
def engineStopped : Engine :=
  { inspect := inspectStopped, reply := fun _ => EngineReply.switching }

/-- A concrete reference parser: every name parses to itself except "bad". -/
def parseDemo : String → Except String String :=
  fun n => if n = "bad" then Except.error "invalid reference" else Except.ok n

/-- A concrete image remover that always succeeds. -/
def removeDemo : String → Bool → Except String Unit :=
  fun _ _ => Except.ok ()

/- ------------------------------------------------------------------ -/
/- Helper lemmas.                                                      -/
/- ------------------------------------------------------------------ -/

/-- Looking up a session after one of its registry transitions returns the
same session with the new state. -/
theorem regFind_setState (reg : List (String × Session)) (id : String)
    (st : SessionState) :
    regFind (setState reg id st) id
      = (regFind reg id).map (fun s => { s with state := st }) := by
  induction reg with
  | nil => rfl
  | cons p rest ih =>
    obtain ⟨k, s⟩ := p
    by_cases h : k = id
    · subst h
      simp only [setState, if_pos rfl]
      simp [regFind]
    · simp only [setState, if_neg h]
      simp only [regFind, if_neg h]
      exact ih

/-- Decoding the 4-byte big-endian encoding of a length below 2 ^ 32 yields
the length back. -/
theorem beBytes4_decode (n : Nat) (h : n < 2 ^ 32) :
    n / 2 ^ 24 % 256 * 2 ^ 24 + n / 2 ^ 16 % 256 * 2 ^ 16
      + n / 2 ^ 8 % 256 * 2 ^ 8 + n % 256 = n := by
  omega

/-- Demultiplexing a stream of stdout-tagged frames, given enough fuel,
yields the concatenated payloads on the stdout endpoint and nothing on the
stderr endpoint. -/
theorem demuxFuel_encodeStdout (frames : List (List Nat)) :
    ∀ fuel, (encodeStdoutFrames frames).length ≤ fuel →
      (∀ p ∈ frames, p.length < 2 ^ 32) →
      demuxFuel fuel (encodeStdoutFrames frames) = (frames.flatten, []) := by
  induction frames with
  | nil =>
    intro fuel _ _
    cases fuel <;> simp [encodeStdoutFrames, demuxFuel]
  | cons p fs ih =>
    intro fuel hfuel hbound
    have hp : p.length < 2 ^ 32 := hbound p (by simp)
    have hwire : encodeStdoutFrames (p :: fs)
        = 1 :: (p.length / 2 ^ 24 % 256) :: (p.length / 2 ^ 16 % 256)
          :: (p.length / 2 ^ 8 % 256) :: (p.length % 256)
          :: (p ++ encodeStdoutFrames fs) := by
      simp [encodeStdoutFrames, encodeFrame, beBytes4, stdoutTag]
    rw [hwire] at hfuel ⊢
    match fuel, hfuel with
    | f + 1, hfuel =>
      have hlen : p.length / 2 ^ 24 % 256 * 2 ^ 24 + p.length / 2 ^ 16 % 256 * 2 ^ 16
          + p.length / 2 ^ 8 % 256 * 2 ^ 8 + p.length % 256 = p.length :=
        beBytes4_decode p.length hp
      have hrest : (encodeStdoutFrames fs).length ≤ f := by
        simp at hfuel
        omega
      have hrec := ih f hrest (fun q hq => hbound q (by simp [hq]))
      simp only [demuxFuel, hlen]
      rw [List.take_left, List.drop_left, hrec]
      simp

/-- When the session is present, attach proceeds as attachFound. -/
theorem attach_eq_found (engine : Engine) (reg : List (String × Session))
    (id : String) (m : Mode) (s : Session)
    (hfind : regFind reg id = some s) :
    attach engine reg id m = attachFound engine reg id m s := by
  unfold attach
  rw [hfind]

/-- After any attach call on a session present in the registry, the session
is still present and is no longer in the created state. -/
theorem attach_leaves_not_created (engine : Engine)
    (reg : List (String × Session)) (id : String) (s : Session) (m : Mode)
    (hfind : regFind reg id = some s) :
    ∃ s', regFind (attach engine reg id m).registry id = some s'
      ∧ s'.state ≠ SessionState.created := by
  rw [attach_eq_found engine reg id m s hfind]
  unfold attachFound
  by_cases hst : s.state = SessionState.created
  · rw [if_neg (not_not_intro hst)]
    by_cases hm : m = s.mode
    · rw [if_neg (not_not_intro hm)]
      by_cases hg : (IsContainerRunning (engine.inspect s.containerRef)).1 = false
      · rw [if_pos hg]
        exact ⟨{ s with state := SessionState.failed },
          by rw [regFind_setState, hfind]; rfl, by simp⟩
      · rw [if_neg hg]
        cases hr : engine.reply id
        · by_cases hdet : m.detach = true
          · rw [if_pos hdet]
            exact ⟨{ s with state := SessionState.detached },
              by rw [regFind_setState, hfind]; rfl, by simp⟩
          · rw [if_neg hdet]
            exact ⟨{ s with state := SessionState.attached },
              by rw [regFind_setState, hfind]; rfl, by simp⟩
        · exact ⟨{ s with state := SessionState.failed },
            by rw [regFind_setState, hfind]; rfl, by simp⟩
        · exact ⟨{ s with state := SessionState.failed },
            by rw [regFind_setState, hfind]; rfl, by simp⟩
    · rw [if_pos hm]
      exact ⟨{ s with state := SessionState.failed },
        by rw [regFind_setState, hfind]; rfl, by simp⟩
  · rw [if_pos hst]
    exact ⟨s, hfind, hst⟩

/-- The rmi loop, run on a list whose first failing name is `bad`, removes
exactly the references of the successful prefix and stops with the wrapped
error, whatever comes after `bad`. -/
theorem runRmi_failure_aux (parse : String → Except String String)
    (imageRemove : String → Bool → Except String Unit) (force : Bool)
    (bad e : String)
    (hbad : parse bad = Except.error e
      ∨ ∃ r, parse bad = Except.ok r ∧ imageRemove r force = Except.error e) :
    ∀ pre post : List String,
      (∀ n ∈ pre, ∃ r, parse n = Except.ok r
        ∧ imageRemove r force = Except.ok ()) →
      runRmi parse imageRemove force (pre ++ bad :: post)
        = (pre.filterMap (fun n => (parse n).toOption),
           some ("failed to remove image: " ++ e)) := by
  intro pre
  induction pre with
  | nil =>
    intro post _
    rcases hbad with h | ⟨r, hr, hrem⟩
    · simp [runRmi, h]
    · simp [runRmi, hr, hrem]
  | cons n pre ih =>
    intro post hpre
    obtain ⟨r, hr, hrem⟩ := hpre n (by simp)
    have hrec := ih post (fun n' hn' => hpre n' (by simp [hn']))
    simp [runRmi, hr, hrem, hrec, Except.toOption]

/- ------------------------------------------------------------------ -/
/- Claim theorems.                                                     -/
/- ------------------------------------------------------------------ -/

/-- Claim C1: every upgrade (exec-start) request carries a structured body
with exactly the boolean fields Detach and Tty matching the session's mode,
is sent with a plain-text content-type header, and the handshake treats the
exchange as successful exactly when the returned status is the
switching-protocols code 101. -/
theorem execStart_wire_contract (execid : String) (tty detach : Bool) :
    (StartContainerExec execid tty detach).body
      = [("Detach", JVal.bool detach), ("Tty", JVal.bool tty)] ∧
    (StartContainerExec execid tty detach).headers
      = [("Content-Type", "text/plain")] ∧
    ∀ statusCode : Nat,
      StartContainerExecOk statusCode = true ↔ statusCode = 101 := by
  refine ⟨rfl, rfl, fun statusCode => ?_⟩
  simp [StartContainerExecOk, CheckRespStatus]

/-- Claim C2: on a non-TTY attached channel, writing bytes to stdin is an
untagged pass-through, and when the peer echoes those bytes back as
stdout-tagged frames in the wire format (1-byte tag, 4-byte big-endian
length, payload), the adapter's stdout endpoint yields exactly the same
bytes and the stderr endpoint yields zero bytes. -/
theorem attach_echo_roundtrip (input : List Nat) (frames : List (List Nat))
    (hframes : frames.flatten = input)
    (hbound : ∀ p ∈ frames, p.length < 2 ^ 32) :
    Adapter.write (mkAdapter false) input = Except.ok input ∧
    Adapter.read (mkAdapter false) (encodeStdoutFrames frames)
      = Except.ok (input, []) := by
  constructor
  · rfl
  · have h := demuxFuel_encodeStdout frames
      (encodeStdoutFrames frames).length le_rfl hbound
    simp [Adapter.read, mkAdapter, demux, h, hframes]

/-- Witness for C2 on a concrete echo of three bytes split over two
frames. -/
theorem attach_echo_roundtrip_witness :
    ([[104, 105], [33]] : List (List Nat)).flatten = [104, 105, 33] ∧
    (∀ p ∈ ([[104, 105], [33]] : List (List Nat)), p.length < 2 ^ 32) ∧
    (Adapter.write (mkAdapter false) [104, 105, 33]
       = Except.ok [104, 105, 33] ∧
     Adapter.read (mkAdapter false) (encodeStdoutFrames [[104, 105], [33]])
       = Except.ok ([104, 105, 33], [])) :=
  ⟨by decide, by decide,
   attach_echo_roundtrip [104, 105, 33] [[104, 105], [33]]
     (by decide) (by decide)⟩

/-- Claim C3: attach succeeds at most once per session: whatever the outcome
of the first attach call on a session id present in the registry, a second
attach call on the same id fails with InvalidTransition and issues no
further upgrade request (no automatic retry). -/
theorem attach_at_most_once (engine1 engine2 : Engine)
    (reg : List (String × Session)) (id : String) (s : Session)
    (m1 m2 : Mode)
    (hfind : regFind reg id = some s) :
    (attach engine2 (attach engine1 reg id m1).registry id m2).result
      = Except.error AttachError.InvalidTransition ∧
    (attach engine2 (attach engine1 reg id m1).registry id m2).upgradeCalls
      = 0 := by
  obtain ⟨s', h', hne⟩ := attach_leaves_not_created engine1 reg id s m1 hfind
  rw [attach_eq_found engine2 (attach engine1 reg id m1).registry id m2 s' h']
  unfold attachFound
  rw [if_pos hne]
  exact ⟨rfl, rfl⟩

/-- Witness for C3 on a concrete registry and an engine accepting the first
upgrade. -/
theorem attach_at_most_once_witness :
    regFind regDemo "exec1" = some sessionDemo ∧
    ((attach engineSwitch (attach engineSwitch regDemo "exec1"
        sessionDemo.mode).registry "exec1" sessionDemo.mode).result
       = Except.error AttachError.InvalidTransition ∧
     (attach engineSwitch (attach engineSwitch regDemo "exec1"
        sessionDemo.mode).registry "exec1" sessionDemo.mode).upgradeCalls
       = 0) :=
  ⟨by decide,
   attach_at_most_once engineSwitch engineSwitch regDemo "exec1" sessionDemo
     sessionDemo.mode sessionDemo.mode (by decide)⟩

/-- Claim C4: when the engine answers the upgrade with a structured
(non-switching) rejection, attach fails with StructuredRejection carrying
the engine's decoded message verbatim, the session transitions to failed,
and no raw channel is created. -/
theorem attach_structured_rejection (engine : Engine)
    (reg : List (String × Session)) (id : String) (s : Session) (m : Mode)
    (msg : String)
    (hfind : regFind reg id = some s)
    (hstate : s.state = SessionState.created)
    (hmode : m = s.mode)
    (hrun : (IsContainerRunning (engine.inspect s.containerRef)).1 = true)
    (hreply : engine.reply id = EngineReply.rejected msg) :
    (attach engine reg id m).result
      = Except.error (AttachError.StructuredRejection msg) ∧
    (regFind (attach engine reg id m).registry id).map Session.state
      = some SessionState.failed ∧
    (attach engine reg id m).channelsOpened = 0 := by
  rw [attach_eq_found engine reg id m s hfind]
  unfold attachFound
  rw [if_neg (not_not_intro hstate), if_neg (not_not_intro hmode),
    if_neg (by simp [hrun]), hreply]
  refine ⟨rfl, ?_, rfl⟩
  rw [regFind_setState, hfind]
  rfl

/-- Witness for C4 on a concrete engine rejecting with the message
"container is paused" (Scenario D of the spec). -/
theorem attach_structured_rejection_witness :
    regFind regDemo "exec1" = some sessionDemo ∧
    sessionDemo.state = SessionState.created ∧
    (IsContainerRunning (engineReject.inspect sessionDemo.containerRef)).1
      = true ∧
    engineReject.reply "exec1" = EngineReply.rejected "container is paused" ∧
    ((attach engineReject regDemo "exec1" sessionDemo.mode).result
       = Except.error (AttachError.StructuredRejection "container is paused") ∧
     (regFind (attach engineReject regDemo "exec1" sessionDemo.mode).registry
        "exec1").map Session.state = some SessionState.failed ∧
     (attach engineReject regDemo "exec1" sessionDemo.mode).channelsOpened
       = 0) :=
  ⟨by decide, by decide, by decide, by decide,
   attach_structured_rejection engineReject regDemo "exec1" sessionDemo
     sessionDemo.mode "container is paused" (by decide) (by decide) rfl
     (by decide) (by decide)⟩

/-- Claim C5: for every freshly handed-over adapter, close releases the
underlying channel exactly once, a second close is a no-op that never raises
an error, and every read or write issued after release fails with
ChannelClosed. -/
theorem adapter_close_contract (tty : Bool) (bytes wire : List Nat) :
    (Adapter.close (mkAdapter tty)).2 = none ∧
    (Adapter.close (mkAdapter tty)).1.releaseCount = 1 ∧
    Adapter.close (Adapter.close (mkAdapter tty)).1
      = ((Adapter.close (mkAdapter tty)).1, none) ∧
    Adapter.read (Adapter.close (mkAdapter tty)).1 wire
      = Except.error AttachError.ChannelClosed ∧
    Adapter.write (Adapter.close (mkAdapter tty)).1 bytes
      = Except.error AttachError.ChannelClosed := by
  simp [Adapter.close, Adapter.read, Adapter.write, mkAdapter]

/-- Claim C6: local precondition failures are surfaced before any network
call: when the Lifecycle Guard reports the container not running (and the
other preconditions hold), attach fails with ContainerNotRunning and issues
zero upgrade requests; moreover every attach call failing with
InvalidTransition, ModeMismatch or ContainerNotRunning issued zero upgrade
requests. -/
theorem attach_preflight_no_network (engine : Engine)
    (reg : List (String × Session)) (id : String) (s : Session) (m : Mode)
    (hfind : regFind reg id = some s)
    (hstate : s.state = SessionState.created)
    (hmode : m = s.mode)
    (hnotrun : (IsContainerRunning (engine.inspect s.containerRef)).1
      = false) :
    (attach engine reg id m).result
      = Except.error AttachError.ContainerNotRunning ∧
    (attach engine reg id m).upgradeCalls = 0 ∧
    ∀ (engine2 : Engine) (reg2 : List (String × Session)) (id2 : String)
      (m2 : Mode) (e : AttachError),
      (attach engine2 reg2 id2 m2).result = Except.error e →
      (e = AttachError.InvalidTransition ∨ e = AttachError.ModeMismatch
        ∨ e = AttachError.ContainerNotRunning) →
      (attach engine2 reg2 id2 m2).upgradeCalls = 0 := by
  refine ⟨?_, ?_, ?_⟩
  · rw [attach_eq_found engine reg id m s hfind]
    unfold attachFound
    rw [if_neg (not_not_intro hstate), if_neg (not_not_intro hmode),
      if_pos hnotrun]
  · rw [attach_eq_found engine reg id m s hfind]
    unfold attachFound
    rw [if_neg (not_not_intro hstate), if_neg (not_not_intro hmode),
      if_pos hnotrun]
  · intro engine2 reg2 id2 m2 e he hel
    rcases hreg : regFind reg2 id2 with _ | s2
    · unfold attach at he ⊢
      rw [hreg] at he ⊢
    · rw [attach_eq_found engine2 reg2 id2 m2 s2 hreg] at he ⊢
      unfold attachFound at he ⊢
      by_cases h1 : s2.state = SessionState.created
      · rw [if_neg (not_not_intro h1)] at he ⊢
        by_cases h2 : m2 = s2.mode
        · rw [if_neg (not_not_intro h2)] at he ⊢
          by_cases h3 : (IsContainerRunning
              (engine2.inspect s2.containerRef)).1 = false
          · rw [if_pos h3]
          · rw [if_neg h3] at he ⊢
            exfalso
            rcases hr : engine2.reply id2 with _ | msg | _ <;> rw [hr] at he
            · by_cases hdet : m2.detach = true
              · rw [if_pos hdet] at he
                simp at he
              · rw [if_neg hdet] at he
                simp at he
            · rcases hel with h | h | h <;> rw [h] at he <;> simp at he
            · rcases hel with h | h | h <;> rw [h] at he <;> simp at he
        · rw [if_pos h2]
      · rw [if_pos h1]

/-- Witness for C6 on a concrete registry with a stopped container. -/
theorem attach_preflight_no_network_witness :
    regFind regDemo "exec1" = some sessionDemo ∧
    (IsContainerRunning (engineStopped.inspect sessionDemo.containerRef)).1
      = false ∧
    ((attach engineStopped regDemo "exec1" sessionDemo.mode).result
       = Except.error AttachError.ContainerNotRunning ∧
     (attach engineStopped regDemo "exec1" sessionDemo.mode).upgradeCalls
       = 0) :=
  ⟨by decide, by decide,
   (attach_preflight_no_network engineStopped regDemo "exec1" sessionDemo
      sessionDemo.mode (by decide) (by decide) rfl (by decide)).1,
   (attach_preflight_no_network engineStopped regDemo "exec1" sessionDemo
      sessionDemo.mode (by decide) (by decide) rfl (by decide)).2.1⟩

/-- Claim C7: for a session created with detach true, a successful attach
transitions the session to detached and the returned channel is already
closed by the adapter, so no further reads occur on it. -/
theorem attach_detached_mode (engine : Engine)
    (reg : List (String × Session)) (id : String) (s : Session) (m : Mode)
    (hfind : regFind reg id = some s)
    (hstate : s.state = SessionState.created)
    (hmode : m = s.mode)
    (hdetach : m.detach = true)
    (hrun : (IsContainerRunning (engine.inspect s.containerRef)).1 = true)
    (hreply : engine.reply id = EngineReply.switching) :
    (attach engine reg id m).result
      = Except.ok (some { closed := true }) ∧
    (regFind (attach engine reg id m).registry id).map Session.state
      = some SessionState.detached := by
  rw [attach_eq_found engine reg id m s hfind]
  unfold attachFound
  rw [if_neg (not_not_intro hstate), if_neg (not_not_intro hmode),
    if_neg (by simp [hrun]), hreply, if_pos hdetach]
  refine ⟨rfl, ?_⟩
  rw [regFind_setState, hfind]
  rfl

/-- Witness for C7 on a concrete detached session and an accepting
engine. -/
theorem attach_detached_mode_witness :
    regFind regDemoDetach "exec2" = some sessionDemoDetach ∧
    sessionDemoDetach.mode.detach = true ∧
    engineSwitch.reply "exec2" = EngineReply.switching ∧
    ((attach engineSwitch regDemoDetach "exec2" sessionDemoDetach.mode).result
       = Except.ok (some { closed := true }) ∧
     (regFind (attach engineSwitch regDemoDetach "exec2"
        sessionDemoDetach.mode).registry "exec2").map Session.state
       = some SessionState.detached) :=
  ⟨by decide, by decide, by decide,
   attach_detached_mode engineSwitch regDemoDetach "exec2" sessionDemoDetach
     sessionDemoDetach.mode (by decide) (by decide) rfl (by decide)
     (by decide) (by decide)⟩

/-- Claim C8 counterexample: the exec-create body built by the source for
container "c1" has no Tty field at all, so the command descriptor does not
consist of an argument vector, a detach flag, a TTY flag and user/privilege
fields as claimed. -/
theorem execCreate_no_tty_field :
    ((CreateExecEchoOk "c1").body.map Prod.fst).contains "Tty" = false := by
  decide

/-- Claim C8 (amended): every exec-create call posts to the target
container's exec path a command descriptor consisting of an argument vector,
a detach flag, the three attach-stream flags (stderr, stdout, stdin) and the
user/privilege fields, and its output is the ID of the decoded response, the
session identifier later placed in the exec-start path by attach. -/
theorem execCreate_contract_amended (cname : String) (resp : ExecCreateResp)
    (tty detach : Bool) :
    (CreateExecEchoOk cname).path = "/containers/" ++ cname ++ "/exec" ∧
    (CreateExecEchoOk cname).body.map Prod.fst
      = ["Cmd", "Detach", "AttachStderr", "AttachStdout", "AttachStdin",
         "Privileged", "User"] ∧
    execCreateResult resp = resp.ID ∧
    (StartContainerExec (execCreateResult resp) tty detach).path
      = "/exec/" ++ resp.ID ++ "/start" :=
  ⟨rfl, rfl, rfl, rfl⟩

/-- Claim C9: runRmi processes the image references in argument order and
stops at the first reference that fails to parse or to be removed, returning
that error wrapped with the prefix "failed to remove image: "; the removals
already performed for earlier references stand, and the remaining references
are not attempted (the result does not depend on them). -/
theorem runRmi_stops_at_first_failure
    (parse : String → Except String String)
    (imageRemove : String → Bool → Except String Unit) (force : Bool)
    (pre post : List String) (bad e : String)
    (hpre : ∀ n ∈ pre, ∃ r, parse n = Except.ok r
      ∧ imageRemove r force = Except.ok ())
    (hbad : parse bad = Except.error e
      ∨ ∃ r, parse bad = Except.ok r
          ∧ imageRemove r force = Except.error e) :
    runRmi parse imageRemove force (pre ++ bad :: post)
      = (pre.filterMap (fun n => (parse n).toOption),
         some ("failed to remove image: " ++ e)) ∧
    runRmi parse imageRemove force (pre ++ bad :: post)
      = runRmi parse imageRemove force (pre ++ [bad]) := by
  constructor
  · exact runRmi_failure_aux parse imageRemove force bad e hbad pre post hpre
  · rw [runRmi_failure_aux parse imageRemove force bad e hbad pre post hpre,
      runRmi_failure_aux parse imageRemove force bad e hbad pre [] hpre]

/-- Witness for C9 on a concrete argument list whose third name fails to
parse. -/
theorem runRmi_stops_at_first_failure_witness :
    parseDemo "bad" = Except.error "invalid reference" ∧
    parseDemo "img1" = Except.ok "img1" ∧
    removeDemo "img1" false = Except.ok () ∧
    (runRmi parseDemo removeDemo false (["img1", "img2"] ++ "bad" :: ["img3"])
       = (["img1", "img2"].filterMap (fun n => (parseDemo n).toOption),
          some ("failed to remove image: " ++ "invalid reference")) ∧
     runRmi parseDemo removeDemo false (["img1", "img2"] ++ "bad" :: ["img3"])
       = runRmi parseDemo removeDemo false (["img1", "img2"] ++ ["bad"])) :=
  ⟨rfl, rfl, rfl,
   runRmi_stops_at_first_failure parseDemo removeDemo false ["img1", "img2"]
     ["img3"] "bad" "invalid reference"
     (by
       intro n hn
       simp at hn
       rcases hn with h | h <;> subst h <;> exact ⟨_, rfl, rfl⟩)
     (Or.inl rfl)⟩

/-- Claim C10: when the inspected container JSON has a nil State field, the
state-comparison helper returns (false, nil) rather than an error, so
IsContainerRunning and IsContainerCreated report the container as not being
in the queried state instead of failing. -/
theorem nil_state_reports_false (got : ContainerJSON) (status : String)
    (h : got.State = none) :
    isContainerStateEqual got status = (false, none) ∧
    IsContainerRunning got = (false, none) ∧
    IsContainerCreated got = (false, none) := by
  simp [isContainerStateEqual, IsContainerRunning, IsContainerCreated, h]

/-- Witness for C10 on the inspect response with a nil State field. -/
theorem nil_state_reports_false_witness :
    (ContainerJSON.mk none).State = none ∧
    (isContainerStateEqual (ContainerJSON.mk none) "running"
       = (false, none) ∧
     IsContainerRunning (ContainerJSON.mk none) = (false, none) ∧
     IsContainerCreated (ContainerJSON.mk none) = (false, none)) :=
  ⟨rfl, nil_state_reports_false (ContainerJSON.mk none) "running" rfl⟩

end Pouch
